import Mathlib

/-!
Shallow embedding of the action-dispatch pipeline of `src/main.ts`
(desktop overlay: clipboard capture, remote completion, action protocol
dispatcher, action handlers, fullscreen presence monitor).

Conventions of the embedding:
* JavaScript `undefined` for an optional object member is `Option.none`;
  `a || b` on strings is `jsOr` (empty string is falsy);
  interpolation of a possibly-undefined value into a template literal is
  `jstr` (JS renders `undefined` as the string "undefined").
* External side effects (shell execution, opening URLs, clipboard writes,
  keystroke simulation) are recorded in an `Effect` list instead of being
  performed; messages sent to the renderer become `DispatchMsg` values.
* The outcome of `exec` for a given command line is supplied as an
  environment `ExecEnv`; the outcome of the one network call is supplied
  as a `NetOutcome`; the active-window geometry query of the presence
  monitor is supplied as a `GeomQuery`.
-/

namespace AllOut

/-- JS `a || b` for a possibly-undefined string member: `undefined` and the
empty string are falsy, any other string is returned as-is. -/
def jsOr (v : Option String) (d : String) : String :=
  match v with
  | some s => if s = "" then d else s
  | none => d

/-- JS template-literal rendering of a possibly-undefined string value:
`undefined` interpolates as the text "undefined". -/
def jstr (v : Option String) : String :=
  v.getD "undefined"

/-- Member lookup on a JSON object modelled as an association list
(first binding wins, as for JS object literals after parsing). -/
def lookupParam (ps : List (String × String)) (k : String) : Option String :=
  (ps.find? (fun p => p.1 == k)).map Prod.snd

/-- The characters JS `String.prototype.trim` strips (the common ASCII
whitespace subset; the full JS set also has Unicode space separators,
irrelevant to the modelled behaviour). -/
def jsWhitespace (c : Char) : Bool :=
  c = ' ' || c = '\t' || c = '\n' || c = '\r' || c = '\x0b' || c = '\x0c'

/-- JS `s.trim()`. -/
def jsTrim (s : String) : String :=
  String.mk (((s.data.dropWhile jsWhitespace).reverse.dropWhile jsWhitespace).reverse)

/-- JS `s.startsWith(p)`. -/
def jsStartsWith (s p : String) : Bool :=
  p.data.isPrefixOf s.data

/-- JS `s.substring(0, n)` (also the result of `.take`): the first `n`
characters of `s`, or all of `s` when it is shorter. -/
def jsTake (s : String) (n : Nat) : String :=
  String.mk (s.data.take n)

/-! ### Content Source: the clipboard poll (`clipboardInterval`, main.ts 296-302)

```js
const newContent = clipboard.readText();
if (newContent !== copiedContent && newContent.trim()) {
  copiedContent = newContent;
  mainWindow?.webContents.send('content-copied', newContent);
}
```
State is the module variable `copiedContent` (initially the empty string).
-/

/-- One tick of the clipboard poll: given the current `copiedContent` state
and the value read from the clipboard, return the new state and the emitted
`content-copied` payload, if any. -/
def pollStep (copiedContent readValue : String) : String × Option String :=
  if readValue ≠ copiedContent ∧ jsTrim readValue ≠ "" then
    (readValue, some readValue)
  else
    (copiedContent, none)

/-- Run the clipboard poll over a sequence of reads, collecting every
emitted `content-copied` payload in order. -/
def pollRun (copiedContent : String) : List String → List String
  | [] => []
  | r :: rs =>
    match pollStep copiedContent r with
    | (s, some v) => v :: pollRun s rs
    | (s, none) => pollRun s rs

/-! ### Presence Monitor (`checkFullscreen`, main.ts 343-369)

The tick queries `xdotool getactivewindow getwindowgeometry --shell`.
The possible observations of that query:
* the callback receives an error → early `return`, nothing happens;
* stdout has no line starting with `GEOMETRY` → the `if (widthMatch)`
  guard fails, nothing happens;
* a `GEOMETRY` line exists but the regex does not match → `width` is
  `undefined`, the fullscreen test is falsy, so the tick takes the
  NotFullscreen branch;
* the regex yields `width`×`height` → fullscreen iff
  `parseInt(width) === screenWidth && parseInt(height) === workAreaHeight`.
-/

/-- Result of the active-window geometry query, as observed by the tick. -/
inductive GeomQuery where
  | queryError
  | noGeometryLine
  | badParse
  | dims (w h : Nat)
deriving DecidableEq, Repr

/-- The 2-bit presence state: whether the overlay window is visible
(`mainWindow.isVisible()`), and the module flag `isHiddenForFullscreen`. -/
structure PresenceState where
  visible : Bool
  hiddenForFullscreen : Bool
deriving DecidableEq, Repr

/-- Calls the presence monitor makes on the overlay window. -/
inductive PresenceCall where
  | hide
  | show
  | focus
deriving DecidableEq, Repr

/-- One `checkFullscreen` tick, parameterised by the primary display's
work-area width `sw` (`screenWidth`) and height `wah`, the geometry
observation, and the current presence state. Returns the new state and the
window calls made, in order. -/
def checkFullscreen (sw wah : Nat) (q : GeomQuery) (s : PresenceState) :
    PresenceState × List PresenceCall :=
  match q with
  | .queryError => (s, [])
  | .noGeometryLine => (s, [])
  | .badParse =>
    -- regex mismatch: the fullscreen test is falsy, NotFullscreen branch
    if s.hiddenForFullscreen ∧ ¬s.visible then
      (⟨true, false⟩, [.show, .focus])
    else
      (s, [])
  | .dims w h =>
    if w = sw ∧ h = wah then
      -- Fullscreen condition
      if ¬s.hiddenForFullscreen ∧ s.visible then
        (⟨false, true⟩, [.hide])
      else
        (s, [])
    else
      -- NotFullscreen
      if s.hiddenForFullscreen ∧ ¬s.visible then
        (⟨true, false⟩, [.show, .focus])
      else
        (s, [])

/-! ### Completion Orchestrator (`analyzeContent`, main.ts 108-157)

`analyzeContent` returns a string in every case. With no API key it returns
at once, before the `axios.post`. Otherwise it issues one POST; the catch
block distinguishes an axios error carrying an HTTP response (401 → invalid
key message; 400/404 → model-unavailable message; anything else → generic
network message) from a transport failure or timeout (generic network
message). When the POST succeeds but `choices` is absent or empty, the code
throws a plain `Error`, which its own catch — `axios.isAxiosError` is false
for it — maps to the same generic network message.
-/

/-- The fields of the loaded configuration that `analyzeContent` reads for
its result strings. `apiKey = ""` is the JS-falsy missing-key case. -/
structure AppConfig where
  apiKey : String
  model : String
deriving DecidableEq, Repr

/-- Observation of the one network call: a successful HTTP response with
its (possibly absent) `choices` array, modelled by the content string of
each choice; an HTTP error status (axios throws, `error.response` set); or
a transport error / timeout (axios throws with no response). -/
inductive NetOutcome where
  | success (choices : Option (List String))
  | httpError (status : Nat)
  | transportError
deriving DecidableEq, Repr

/-- The function `analyzeContent`, returning the result string and whether the network
call was attempted. The system/user prompt construction does not influence
the result classification and is not modelled. -/
def analyzeContent (cfg : AppConfig) (net : NetOutcome) : String × Bool :=
  if cfg.apiKey = "" then
    ("No OpenRouter API key set. Press F1 to configure.", false)
  else
    match net with
    | .success choices =>
      match choices with
      | some (c :: _) => (c, true)
      | _ =>
        -- `throw new Error(...)` caught by the generic catch branch
        ("Network error or API unavailable. Please check your connection.", true)
    | .httpError status =>
      if status = 401 then
        ("Invalid API key (401). Press F1 to update it.", true)
      else if status = 404 ∨ status = 400 then
        ("Model \x27" ++ cfg.model ++ "\x27 not available. Press F1 to change it.", true)
      else
        ("Network error or API unavailable. Please check your connection.", true)
    | .transportError =>
      ("Network error or API unavailable. Please check your connection.", true)

/-! ### Action Handlers (`executeAction`, main.ts 159-235) -/

/-- External side effects the handlers and the confirmation step perform. -/
inductive Effect where
  | execShell (cmd : String)
  | openExternal (url : String)
  | writeClipboard (text : String)
  | keyPress (combo : String)
  | keyRelease (combo : String)
deriving DecidableEq, Repr

/-- Outcome of `execAsync cmd` for a given command line. -/
inductive ExecResult where
  | ok (stdout stderr : String)
  | err (message : String)
deriving DecidableEq, Repr

/-- Environment: what `exec` does for each command line. -/
def ExecEnv := String → ExecResult

/-- The parsed JSON reply as the dispatcher sees it: possibly-absent
`action`, `params` and top-level `response` members. `params`, when
present, is an association list of string-valued members. -/
structure ActionData where
  action : Option String
  params : Option (List (String × String))
  response : Option String
deriving DecidableEq, Repr

/-- Member access `actionData.params.k`: if `params` itself is `undefined`
the access throws a TypeError (`Except.error`); otherwise it yields the
member's value or `undefined`. -/
def getParam (a : ActionData) (k : String) : Except Unit (Option String) :=
  match a.params with
  | none => .error ()
  | some ps => .ok (lookupParam ps k)

/-- percent-encoding hex digit (uppercase, as `encodeURIComponent`). -/
def hexDigit (n : Nat) : Char :=
  if n < 10 then Char.ofNat (48 + n) else Char.ofNat (55 + n)

/-- Percent escape `%HH` for one byte. -/
def pctByte (b : Nat) : String :=
  String.mk ['%', hexDigit (b / 16 % 16), hexDigit (b % 16)]

/-- UTF-8 bytes of one character (by code point). -/
def utf8Bytes (n : Nat) : List Nat :=
  if n < 0x80 then [n]
  else if n < 0x800 then [0xC0 + n / 64, 0x80 + n % 64]
  else if n < 0x10000 then [0xE0 + n / 4096, 0x80 + n / 64 % 64, 0x80 + n % 64]
  else [0xF0 + n / 262144, 0x80 + n / 4096 % 64, 0x80 + n / 64 % 64, 0x80 + n % 64]

/-- Characters `encodeURIComponent` leaves unescaped. -/
def uriUnreserved (c : Char) : Bool :=
  c.isAlphanum || c ∈ ['-', '_', '.', '!', '~', '*', '\x27', '(', ')']

/-- JS `encodeURIComponent`. -/
def encodeURIComponent (s : String) : String :=
  String.join (s.data.map fun c =>
    if uriUnreserved c then String.singleton c
    else String.join ((utf8Bytes c.toNat).map pctByte))

/-- The handler dispatch `executeAction`. Mirrors the if/else chain of main.ts 165-229; the
final `return 'Action completed.'` is the fall-through for a silent action
name with no matching branch (`type_text`). The whole body sits in a
try/catch whose catch returns `Error executing action: ...`; in this model
only a TypeError from accessing a member of an undefined `params` reaches
it, with a host-determined exception message `exnMsg`. Returns the result
string and the effects performed, in order. -/
def executeAction (env : ExecEnv) (platform : String) (exnMsg : String)
    (a : ActionData) : String × List Effect :=
  if a.action = some "run_command" then
    match getParam a "command" with
    | .error _ => ("Error executing action: " ++ exnMsg ++ ".", [])
    | .ok cmdv =>
      -- the command string reaches `exec` via a template-free variable;
      -- an undefined value is rendered by the rejection message via `jstr`
      let command := jstr cmdv
      match env command with
      | .ok stdout stderr =>
        let r0 := "Executed: " ++ command
        let r1 := if jsTrim stdout ≠ "" then r0 ++ "\n\nOutput:\n" ++ stdout else r0
        let r2 := if jsTrim stderr ≠ "" then r1 ++ "\n\nErrors:\n" ++ stderr else r1
        (r2, [.execShell command])
      | .err m =>
        ("Error executing \"" ++ command ++ "\": " ++ m, [.execShell command])
  else if a.action = some "open_app" then
    match getParam a "appName" with
    | .error _ => ("Error executing action: " ++ exnMsg ++ ".", [])
    | .ok appv =>
      let appName := jstr appv
      let command :=
        if platform = "win32" then "start " ++ appName
        else if platform = "darwin" then "open -a \"" ++ appName ++ "\""
        else "xdg-open \"" ++ appName ++ "\" || " ++ appName
      match env command with
      | .ok stdout stderr =>
        let r0 := "Opened: " ++ appName
        let r1 := if jsTrim stdout ≠ "" then r0 ++ "\n\nOutput:\n" ++ stdout else r0
        let r2 := if jsTrim stderr ≠ "" then r1 ++ "\n\nErrors:\n" ++ stderr else r1
        (r2, [.execShell command])
      | .err m =>
        ("Error opening \"" ++ appName ++ "\": " ++ m, [.execShell command])
  else if a.action = some "play_music" then
    match getParam a "query" with
    | .error _ => ("Error executing action: " ++ exnMsg ++ ".", [])
    | .ok qv =>
      ("Playing: " ++ jstr qv,
       [.openExternal ("https://music.youtube.com/search?q=" ++ encodeURIComponent (jstr qv))])
  else if a.action = some "copy_text" then
    match getParam a "text" with
    | .error _ => ("Error executing action: " ++ exnMsg ++ ".", [])
    | .ok tv =>
      match tv with
      | some t => ("Copied: " ++ jsTake t 50 ++ "...", [.writeClipboard t])
      | none =>
        -- clipboard.writeText(undefined) throws before any effect
        ("Error executing action: " ++ exnMsg ++ ".", [])
  else if a.action = some "analysis" then
    match getParam a "analysis" with
    | .error _ => ("Error executing action: " ++ exnMsg ++ ".", [])
    | .ok av => (jsOr av "No analysis provided.", [])
  else if a.action = some "open_url" then
    match getParam a "url" with
    | .error _ => ("Error executing action: " ++ exnMsg ++ ".", [])
    | .ok uv =>
      -- `if (url && url.startsWith('http'))`
      match uv with
      | some u =>
        if u ≠ "" ∧ jsStartsWith u "http" then
          ("Opened: " ++ u, [.openExternal u])
        else
          ("Invalid URL provided.", [])
      | none => ("Invalid URL provided.", [])
  else if a.action = some "search_web" then
    match getParam a "query" with
    | .error _ => ("Error executing action: " ++ exnMsg ++ ".", [])
    | .ok qv =>
      ("Searching: " ++ jstr qv,
       [.openExternal ("https://www.google.com/search?q=" ++ encodeURIComponent (jstr qv))])
  else
    ("Action completed.", [])

/-! ### Dispatcher (`ipcMain.on('ask-ai')`, main.ts 414-440)

After the completion result `response` arrives, the handler runs

```js
try {
  const actionData = JSON.parse(response);
  const silentActions = ['play_music','open_url','type_text','copy_text',
                         'search_web','run_command','open_app'];
  if (actionData.action === 'replace_text') { send('text-replacement', {oldText: copiedContent, newText: actionData.params.newText}); }
  else if (silentActions.includes(actionData.action)) {
    const result = await executeAction(actionData);
    if (actionData.action === 'run_command') send('analysis-complete', result);
    else send('action-completed', result);
  }
  else if (actionData.action === 'analysis') send('analysis-complete', actionData.params.analysis);
  else send('ask-complete', actionData.response || 'Action completed.');
} catch (parseError) { send('ask-complete', response); }
```

`JSON.parse` is external; its outcome for the reply string is supplied as
an `Option ActionData` (`none` = the string is not valid JSON). A
TypeError from `actionData.params.newText` / `.analysis` when `params` is
undefined also lands in the catch, sending the raw reply. -/

/-- Terminal message sent to the renderer for one `ask-ai` run. Payloads
that the source can send as `undefined` are `Option String`. -/
inductive DispatchMsg where
  | textReplacement (oldText : String) (newText : Option String)
  | analysisComplete (payload : Option String)
  | actionCompleted (payload : String)
  | askComplete (payload : String)
deriving DecidableEq, Repr

/-- The silent-action list of the dispatcher (main.ts 421). -/
def silentActions : List String :=
  ["play_music", "open_url", "type_text", "copy_text", "search_web",
   "run_command", "open_app"]

/-- The `ask-ai` dispatch of a completion reply: `raw` is the reply string,
`parsed` the outcome of `JSON.parse raw`. Returns the terminal message and
the effects performed. -/
def askAiDispatch (env : ExecEnv) (platform exnMsg : String)
    (copiedContent raw : String) (parsed : Option ActionData) :
    DispatchMsg × List Effect :=
  match parsed with
  | none => (.askComplete raw, [])
  | some a =>
    if a.action = some "replace_text" then
      match a.params with
      | none =>
        -- TypeError on `actionData.params.newText` → catch → raw reply
        (.askComplete raw, [])
      | some ps => (.textReplacement copiedContent (lookupParam ps "newText"), [])
    else if (match a.action with | some s => silentActions.contains s | none => false) then
      let (result, effs) := executeAction env platform exnMsg a
      if a.action = some "run_command" then (.analysisComplete (some result), effs)
      else (.actionCompleted result, effs)
    else if a.action = some "analysis" then
      match a.params with
      | none =>
        -- TypeError on `actionData.params.analysis` → catch → raw reply
        (.askComplete raw, [])
      | some ps => (.analysisComplete (lookupParam ps "analysis"), [])
    else
      (.askComplete (jsOr a.response "Action completed."), [])

/-! ### Replacement confirmation (`ipcMain.on('confirm-replacement')`, main.ts 447-458)

```js
try {
  clipboard.writeText(newText);
  await nutKeyboard.pressKey(Key.LeftControl, Key.X);
  await nutKeyboard.releaseKey(Key.LeftControl, Key.X);
  await nutKeyboard.pressKey(Key.LeftControl, Key.V);
  await nutKeyboard.releaseKey(Key.LeftControl, Key.V);
} catch (error) { console.error('Replacement error:', error); }
```
-/

/-- Outcome of the keystroke simulation: all four nut-js calls succeed, or
the `n`-th call (0-based) throws. -/
inductive KeySimOutcome where
  | ok
  | failAt (n : Nat)
deriving DecidableEq, Repr

/-- The four nut-js keyboard calls, in program order. -/
def replacementKeys : List Effect :=
  [.keyPress "Ctrl+X", .keyRelease "Ctrl+X", .keyPress "Ctrl+V", .keyRelease "Ctrl+V"]

/-- The confirmation step: the effects performed, in order, and the message
sent back to the renderer — always `none`: the handler sends nothing, and
its catch swallows any keystroke-simulation error (console.error only). -/
def confirmReplacement (newText : String) (sim : KeySimOutcome) :
    List Effect × Option DispatchMsg :=
  (Effect.writeClipboard newText ::
    (match sim with
     | .ok => replacementKeys
     | .failAt n => replacementKeys.take n), none)

/-- Recognizer for clipboard-write effects. -/
def isClipWrite : Effect → Bool
  | .writeClipboard _ => true
  | _ => false

/-- The generic catch-all message of `analyzeContent`. -/
def networkErrorMsg : String :=
  "Network error or API unavailable. Please check your connection."

/-- A concrete exec environment for witnesses: every command succeeds with
empty output. -/
def env0 : ExecEnv := fun _ => .ok "" ""

/-! ## Theorems -/

/-- C3: for every reply string that fails JSON parsing, the `ask-ai`
dispatch sends `ask-complete` carrying the input string itself — the
universal plain-text fallback — performing no effect and raising no
error. -/
theorem dispatch_parse_failure_is_plaintext (env : ExecEnv)
    (platform exnMsg copied raw : String) :
    askAiDispatch env platform exnMsg copied raw none =
      (.askComplete raw, []) := rfl

/-- C6: a parsed `replace_text` reply is never executed immediately: the
dispatcher only emits a `text-replacement` request pairing the last
captured clipboard content with the reply's `newText`, with no side
effect; the separate confirmation step writes `newText` to the clipboard
and then simulates Ctrl+X followed by Ctrl+V. -/
theorem replace_text_two_step (env : ExecEnv)
    (platform exnMsg copied raw nt : String) (r : Option String) :
    askAiDispatch env platform exnMsg copied raw
        (some ⟨some "replace_text", some [("newText", nt)], r⟩) =
      (.textReplacement copied (some nt), []) ∧
    confirmReplacement nt .ok =
      ([.writeClipboard nt, .keyPress "Ctrl+X", .keyRelease "Ctrl+X",
        .keyPress "Ctrl+V", .keyRelease "Ctrl+V"], none) :=
  ⟨rfl, rfl⟩

/-- C9: the replacement confirmation is not atomic on error: the clipboard
write happens first, so when the `n`-th keystroke call throws, the handler
sends nothing back (`none`, the catch swallows the error), the clipboard
write has already happened, and no later effect rewrites the clipboard —
it permanently holds `newText`. -/
theorem confirm_replacement_not_atomic (nt : String) (n : Nat) :
    (confirmReplacement nt (.failAt n)).2 = none ∧
    (confirmReplacement nt (.failAt n)).1.head? =
      some (.writeClipboard nt) ∧
    (confirmReplacement nt (.failAt n)).1.filter isClipWrite =
      [.writeClipboard nt] := by
  refine ⟨rfl, rfl, ?_⟩
  have hkeys : (replacementKeys.take n).filter isClipWrite = [] := by
    rw [List.filter_eq_nil_iff]
    intro e he
    have hmem : e ∈ replacementKeys := List.take_subset n replacementKeys he
    simp only [replacementKeys, List.mem_cons, List.not_mem_nil, or_false] at hmem
    rcases hmem with rfl | rfl | rfl | rfl <;> simp [isClipWrite]
  simp [confirmReplacement, List.filter, isClipWrite, hkeys]

/-- C7: the `open_url` handler opens the URL externally if and only if the
`url` parameter begins with "http"; for any other value it performs no
external open and returns "Invalid URL provided.". -/
theorem open_url_http_only (env : ExecEnv) (platform exnMsg : String)
    (r : Option String) (u : String) :
    executeAction env platform exnMsg ⟨some "open_url", some [("url", u)], r⟩ =
      (if jsStartsWith u "http" then ("Opened: " ++ u, [.openExternal u])
       else ("Invalid URL provided.", [])) ∧
    (Effect.openExternal u ∈
        (executeAction env platform exnMsg
          ⟨some "open_url", some [("url", u)], r⟩).2 ↔
      jsStartsWith u "http" = true) := by
  have hmain : executeAction env platform exnMsg
      ⟨some "open_url", some [("url", u)], r⟩ =
      (if jsStartsWith u "http" then ("Opened: " ++ u, [.openExternal u])
       else ("Invalid URL provided.", [])) := by
    by_cases hu : u = ""
    · subst hu
      have h0 : jsStartsWith "" "http" = false := by decide
      simp [executeAction, getParam, lookupParam, h0]
    · simp [executeAction, getParam, lookupParam, hu]
  refine ⟨hmain, ?_⟩
  rw [hmain]
  cases h : jsStartsWith u "http" <;> simp

/-- C8: for a `text` parameter of length 80, `copy_text` writes the full
80-character text to the clipboard, and the result string is "Copied: "
followed by exactly the first 50 characters and an ellipsis marker. -/
theorem copy_text_truncates_result_not_clipboard (env : ExecEnv)
    (platform exnMsg : String) (r : Option String) (t : String)
    (h : t.length = 80) :
    executeAction env platform exnMsg ⟨some "copy_text", some [("text", t)], r⟩ =
      ("Copied: " ++ jsTake t 50 ++ "...", [.writeClipboard t]) ∧
    (jsTake t 50).length = 50 := by
  constructor
  · simp [executeAction, getParam, lookupParam]
  · have hd : t.data.length = 80 := h
    simp [jsTake, String.length, hd]

/-- C8 witness: the theorem at a concrete 80-character text. -/
theorem copy_text_truncates_witness :
    ("01234567890123456789012345678901234567890123456789012345678901234567890123456789" : String).length = 80 ∧
    (executeAction env0 "linux" ""
        ⟨some "copy_text",
         some [("text", "01234567890123456789012345678901234567890123456789012345678901234567890123456789")],
         none⟩ =
      ("Copied: " ++
        jsTake "01234567890123456789012345678901234567890123456789012345678901234567890123456789" 50 ++
        "...",
       [.writeClipboard "01234567890123456789012345678901234567890123456789012345678901234567890123456789"]) ∧
    (jsTake "01234567890123456789012345678901234567890123456789012345678901234567890123456789" 50).length = 50) :=
  ⟨by decide,
   copy_text_truncates_result_not_clipboard env0 "linux" "" none _ (by decide)⟩

/-- C4: the clipboard poll emits exactly when the read differs from the
last observed value and is non-blank after trimming: the read sequence
[A, A, B, B, B, C] (distinct adjacent non-blank values, starting from the
initial empty `copiedContent`) emits exactly [A, B, C], and a read of
whitespace only never emits. -/
theorem clipboard_dedup_and_blank_suppression (A B C : String)
    (hA : jsTrim A ≠ "") (hB : jsTrim B ≠ "") (hC : jsTrim C ≠ "")
    (hAB : A ≠ B) (hBC : B ≠ C) :
    pollRun "" [A, A, B, B, B, C] = [A, B, C] ∧
    (∀ copied, pollRun copied ["   "] = []) ∧
    (∀ copied r, (pollStep copied r).2 = some r ↔
      (r ≠ copied ∧ jsTrim r ≠ "")) := by
  refine ⟨?_, ?_, ?_⟩
  · have hA0 : A ≠ "" := fun h => hA (by rw [h]; rfl)
    have hBA : B ≠ A := Ne.symm hAB
    have hCB : C ≠ B := Ne.symm hBC
    simp [pollRun, pollStep, hA0, hA, hB, hC, hBA, hCB]
  · intro copied
    have hblank : jsTrim "   " = "" := by decide
    simp [pollRun, pollStep, hblank]
  · intro copied r
    unfold pollStep
    split
    · next hcond => simpa using hcond
    · next hcond => simp [hcond]

/-- C4 witness: the sequence theorem at A = "a", B = "b", C = "c". -/
theorem clipboard_dedup_witness :
    pollRun "" ["a", "a", "b", "b", "b", "c"] = ["a", "b", "c"] :=
  (clipboard_dedup_and_blank_suppression "a" "b" "c"
    (by decide) (by decide) (by decide) (by decide) (by decide)).1

/-- C10: the poll state (`copiedContent`) is updated only on emission — a
blank or duplicate read leaves it unchanged — so for a non-blank A the
sequence [A, "", A] emits exactly once: the blank read keeps the retained
first observation, and the second A is suppressed as a duplicate. -/
theorem poll_state_updates_only_on_emit (A : String) (hA : jsTrim A ≠ "") :
    pollRun "" [A, "", A] = [A] ∧
    (∀ copied r, (pollStep copied r).2 = none →
      (pollStep copied r).1 = copied) := by
  constructor
  · have hA0 : A ≠ "" := fun h => hA (by rw [h]; rfl)
    have hblank : jsTrim "" = "" := rfl
    simp [pollRun, pollStep, hA0, hA, hblank]
  · intro copied r
    unfold pollStep
    split
    · simp
    · simp

/-- C10 witness: the theorem at A = "a". -/
theorem poll_state_updates_witness :
    pollRun "" ["a", "", "a"] = ["a"] :=
  (poll_state_updates_only_on_emit "a" (by decide)).1

/-- C5: the presence-monitor tick is the guarded step relation on
`PresenceState`: a geometry-query error changes nothing; under Fullscreen
it hides and sets the flag exactly when currently visible with the flag
clear (so a repeated Fullscreen tick on the hidden-for-fullscreen state is
a no-op); under NotFullscreen it shows, focuses and clears the flag
exactly when currently hidden with the flag set (so a repeated
NotFullscreen tick on the visible state is a no-op, and a hide with the
flag clear is never overridden by a show on any observation). -/
theorem presence_tick_guarded_step (sw wah : Nat) (s : PresenceState) :
    checkFullscreen sw wah .queryError s = (s, []) ∧
    (∀ w h, w = sw → h = wah →
      checkFullscreen sw wah (.dims w h) s =
        (if s.visible ∧ ¬s.hiddenForFullscreen
         then (⟨false, true⟩, [.hide]) else (s, []))) ∧
    (∀ w h, ¬(w = sw ∧ h = wah) →
      checkFullscreen sw wah (.dims w h) s =
        (if ¬s.visible ∧ s.hiddenForFullscreen
         then (⟨true, false⟩, [.show, .focus]) else (s, []))) ∧
    checkFullscreen sw wah (.dims sw wah) ⟨false, true⟩ =
      (⟨false, true⟩, []) ∧
    (∀ w h, ¬(w = sw ∧ h = wah) →
      checkFullscreen sw wah (.dims w h) ⟨true, false⟩ =
        (⟨true, false⟩, [])) ∧
    (∀ q, checkFullscreen sw wah q ⟨false, false⟩ = (⟨false, false⟩, [])) := by
  obtain ⟨v, f⟩ := s
  refine ⟨rfl, ?_, ?_, ?_, ?_, ?_⟩
  · intro w h hw hh
    subst hw; subst hh
    cases v <;> cases f <;> simp [checkFullscreen]
  · intro w h hwh
    cases v <;> cases f <;> simp [checkFullscreen, hwh]
  · simp [checkFullscreen]
  · intro w h hwh
    simp [checkFullscreen, hwh]
  · intro q
    cases q <;> simp [checkFullscreen]

/-- C5 witness: the theorem's Fullscreen and NotFullscreen transitions at
a concrete 1920×1040 work area. -/
theorem presence_tick_witness :
    checkFullscreen 1920 1040 (.dims 1920 1040) ⟨true, false⟩ =
      (⟨false, true⟩, [.hide]) ∧
    checkFullscreen 1920 1040 (.dims 800 600) ⟨false, true⟩ =
      (⟨true, false⟩, [.show, .focus]) := by
  have h1 := (presence_tick_guarded_step 1920 1040 ⟨true, false⟩).2.1
    1920 1040 rfl rfl
  have h2 := (presence_tick_guarded_step 1920 1040 ⟨false, true⟩).2.2.1
    800 600 (by decide)
  constructor
  · rw [h1]; simp
  · rw [h2]; simp

/-- C1 (counterexample): the claim fails on the code in two ways. The
action name "type_text" is outside the claimed closed ActionKind set, yet
the dispatcher routes it into `executeAction` (whose fall-through returns
"Action completed.") and sends `action-completed` — not the claimed
plain-text `ask-complete`. And for an unmatched action carrying
`params.response = "hello"`, the dispatcher sends the generic notice, not
`params.response`: the surfaced value is the top-level `response` member,
which is absent here. -/
theorem dispatch_unknown_action_counterexample :
    (some "type_text" ∉
      [some "run_command", some "open_app", some "play_music",
       some "copy_text", some "search_web", some "open_url",
       some "analysis", some "replace_text"]) ∧
    askAiDispatch env0 "linux" "" "" "raw"
        (some ⟨some "type_text", some [], none⟩) =
      (.actionCompleted "Action completed.", []) ∧
    askAiDispatch env0 "linux" "" "" "raw"
        (some ⟨some "foo", some [("response", "hello")], none⟩) =
      (.askComplete "Action completed.", []) := by
  refine ⟨by decide, by decide, by decide⟩

/-- C1 (amended): for every successfully-parsed reply whose `action` is
none of `replace_text`, `analysis`, or the dispatcher's seven silent
action names (`play_music`, `open_url`, `type_text`, `copy_text`,
`search_web`, `run_command`, `open_app`), the dispatcher sends
`ask-complete` carrying the reply's top-level `response` member when that
is a non-empty string, else the generic "Action completed." notice — it
never calls `executeAction`, performs no effect, and produces no error. -/
theorem dispatch_unknown_action_plaintext (env : ExecEnv)
    (platform exnMsg copied raw : String) (a : ActionData)
    (h : a.action ∉
      [some "replace_text", some "play_music", some "open_url",
       some "type_text", some "copy_text", some "search_web",
       some "run_command", some "open_app", some "analysis"]) :
    askAiDispatch env platform exnMsg copied raw (some a) =
      (.askComplete (jsOr a.response "Action completed."), []) := by
  simp only [List.mem_cons, List.not_mem_nil, or_false, not_or] at h
  obtain ⟨h1, h2, h3, h4, h5, h6, h7, h8, h9⟩ := h
  cases ha : a.action with
  | none => simp [askAiDispatch, ha]
  | some s =>
    rw [ha] at h1 h2 h3 h4 h5 h6 h7 h8 h9
    simp only [Option.some.injEq] at h1 h2 h3 h4 h5 h6 h7 h8 h9
    simp [askAiDispatch, silentActions, ha,
      h1, h2, h3, h4, h5, h6, h7, h8, h9]

/-- C1 (amended) witness: the spec's own example
`action = "delete_everything"` with empty params and no `response`
dispatches as the generic plain-text notice. -/
theorem dispatch_unknown_action_witness :
    (some "delete_everything" ∉
      ([some "replace_text", some "play_music", some "open_url",
        some "type_text", some "copy_text", some "search_web",
        some "run_command", some "open_app", some "analysis"] :
        List (Option String))) ∧
    askAiDispatch env0 "linux" "" "" "raw"
        (some ⟨some "delete_everything", some [], none⟩) =
      (.askComplete (jsOr none "Action completed."), []) :=
  ⟨by decide,
   dispatch_unknown_action_plaintext env0 "linux" "" "" "raw"
     ⟨some "delete_everything", some [], none⟩ (by decide)⟩

/-- C2 (counterexample): the empty and the absent choice list are not
reported distinctly from the other failure kinds — `analyzeContent` throws
a plain `Error` which its own catch (not an axios error) collapses into
exactly the generic network-error text of the NetworkOrTimeout case. -/
theorem completion_malformed_counterexample :
    (analyzeContent ⟨"key", "m"⟩ (.success (some []))).1 =
      (analyzeContent ⟨"key", "m"⟩ .transportError).1 ∧
    (analyzeContent ⟨"key", "m"⟩ (.success none)).1 =
      (analyzeContent ⟨"key", "m"⟩ .transportError).1 ∧
    (analyzeContent ⟨"key", "m"⟩ .transportError).1 = networkErrorMsg := by
  refine ⟨by decide, by decide, by decide⟩

/-- C2 (amended): the completion operation classifies failures as follows:
a missing API key short-circuits before any network call and yields the
no-key message; HTTP 401 yields a result whose text contains "Invalid API
key"; HTTP 400 or 404 yields the model-unavailable message; a timeout or
transport error yields the generic network-error message; and an empty or
absent choice list yields that same generic network-error message — not a
result distinct from the NetworkOrTimeout case. -/
theorem completion_failure_classification (cfg : AppConfig) :
    (cfg.apiKey = "" → ∀ net, analyzeContent cfg net =
      ("No OpenRouter API key set. Press F1 to configure.", false)) ∧
    (cfg.apiKey ≠ "" →
      analyzeContent cfg (.httpError 401) =
        ("Invalid API key" ++ " (401). Press F1 to update it.", true) ∧
      (∀ status, status = 400 ∨ status = 404 →
        analyzeContent cfg (.httpError status) =
          ("Model \x27" ++ cfg.model ++ "\x27 not available. Press F1 to change it.",
           true)) ∧
      analyzeContent cfg .transportError = (networkErrorMsg, true) ∧
      (∀ choices, choices = none ∨ choices = some [] →
        analyzeContent cfg (.success choices) = (networkErrorMsg, true))) := by
  constructor
  · intro hk net
    simp [analyzeContent, hk]
  · intro hk
    refine ⟨?_, ?_, ?_, ?_⟩
    · simp [analyzeContent, hk]
    · intro status hs
      rcases hs with rfl | rfl <;> simp [analyzeContent, hk]
    · simp [analyzeContent, hk, networkErrorMsg]
    · intro choices hc
      rcases hc with rfl | rfl <;> simp [analyzeContent, hk, networkErrorMsg]

/-- C2 (amended) witness: with an API key set, an HTTP 401 yields the
invalid-key message (with "Invalid API key" as its leading text). -/
theorem completion_failure_witness :
    (⟨"key", "m"⟩ : AppConfig).apiKey ≠ "" ∧
    analyzeContent ⟨"key", "m"⟩ (.httpError 401) =
      ("Invalid API key" ++ " (401). Press F1 to update it.", true) :=
  ⟨by decide,
   ((completion_failure_classification ⟨"key", "m"⟩).2 (by decide)).1⟩

end AllOut
